import Mathlib

/-!
# A verification model of `Chapter01/forecasting/forecasting_example.py`

Shallow embedding of the data-shaping core of the forecasting script and of
its interaction with the tracking-run context.

Conventions of the embedding:
* a pandas dataframe is a list of column labels together with a list of rows,
  and every cell is an integer (dates are integers: raw encodings before
  `pd.to_datetime`, timestamps after; `toDT` is the elementwise conversion);
* label lookup on a missing column raises `KeyError`, modelled as
  `Except.error`;
* the in-place mutation that `prep_store_data` performs on the caller's frame
  is made explicit: a successful call returns the post-call state of the
  input object together with the returned frame;
* the external library calls made inside `train_predict` (Prophet fitting,
  cross-validation, metric computation, MLflow logging) are oracles that may
  either succeed or raise; the `with mlflow.start_run():` block is the
  context-manager semantics `withRun`;
* Python `float` fractions are modelled as exact rationals, and `int()` as
  truncation toward zero.
-/

set_option maxRecDepth 20000

/-- A row of a dataframe: one integer cell per column. -/
abbrev Row := List Int

/-- A pandas dataframe: a list of column labels and a list of rows. -/
structure DataFrame where
  cols : List String
  rows : List Row
deriving DecidableEq

/-- Label lookup: position of the first column labelled `c`. -/
def findCol (df : DataFrame) (c : String) : Option Nat :=
  df.cols.findIdx? (fun x => x == c)

/-- The cell of row `r` at column position `i` (0 outside the row). -/
def cellD (r : Row) (i : Nat) : Int :=
  r.getD i 0

/-- The contents of column `c`, top to bottom (empty if no such label). -/
def colD (df : DataFrame) (c : String) : List Int :=
  match findCol df c with
  | some i => df.rows.map (fun r => cellD r i)
  | none => []

/-- The column relabelling of line 47,
`df.rename(columns={"Date": "ds", "Sales": "y"}, inplace=True)`:
`Date` becomes `ds`, `Sales` becomes `y`, every other label is kept. -/
def renameCol (c : String) : String :=
  if c = "Date" then "ds" else if c = "Sales" then "y" else c

/-- The in-place mutation of the caller's frame performed by lines 46-47:
`df["Date"] = pd.to_datetime(df["Date"])` (elementwise conversion `toDT` of
the `Date` column, at position `di`) followed by the relabelling above. -/
def mutateFrame (toDT : Int → Int) (df : DataFrame) (di : Nat) : DataFrame :=
  { cols := df.cols.map renameCol,
    rows := df.rows.map (fun r => r.set di (toDT (cellD r di))) }

/-- The boolean mask of line 48,
`(df["Store"] == store_id) & (df["Open"] == store_open)`, applied to one row
(`si`, `oi`: positions of the `Store` and `Open` columns). -/
def rowMatches (si oi : Nat) (store_id store_open : Int) (r : Row) : Bool :=
  (cellD r si == store_id) && (cellD r oi == store_open)

/-- The `sort_values("ds", ascending=True)` key order of line 51: compare
rows by their `ds` cell, at position `ki`. -/
def dsLe (ki : Nat) : Row → Row → Prop :=
  fun a b => cellD a ki ≤ cellD b ki

instance (ki : Nat) : DecidableRel (dsLe ki) :=
  fun a b => Int.decLe (cellD a ki) (cellD b ki)

instance (ki : Nat) : IsTotal Row (dsLe ki) :=
  ⟨fun a b => Int.le_total (cellD a ki) (cellD b ki)⟩

instance (ki : Nat) : IsTrans Row (dsLe ki) :=
  ⟨fun _ _ _ => Int.le_trans⟩

/-- Shallow embedding of `prep_store_data` (lines 43-51).

```
def prep_store_data(df, store_id=4, store_open=1):
    df["Date"] = pd.to_datetime(df["Date"])
    df.rename(columns={"Date": "ds", "Sales": "y"}, inplace=True)
    df_store = df[(df["Store"] == store_id) & (df["Open"] == store_open)
                  ].reset_index(drop=True)
    return df_store.sort_values("ds", ascending=True)
```

The first two statements mutate the caller's frame (`df1` below is its state
after the call); the mask keeps the matching rows, `reset_index(drop=True)`
is the identity on the row list, and `sort_values` sorts by the `ds` cell.
A successful result pairs the mutated input with the returned frame. -/
def prep_store_data (toDT : Int → Int) (df : DataFrame)
    (store_id store_open : Int) :
    Except String (DataFrame × DataFrame) :=
  match findCol df "Date" with
  | none => Except.error "KeyError: Date"
  | some di =>
    let df1 := mutateFrame toDT df di
    match findCol df1 "Store", findCol df1 "Open" with
    | some si, some oi =>
      let df_store : DataFrame :=
        { df1 with rows := df1.rows.filter (rowMatches si oi store_id store_open) }
      match findCol df_store "ds" with
      | none => Except.error "KeyError: ds"
      | some ki =>
        Except.ok (df1, { df_store with rows := df_store.rows.insertionSort (dsLe ki) })
    | none, _ => Except.error "KeyError: Store"
    | _, none => Except.error "KeyError: Open"

/-- Python `int()` applied to a number: truncation toward zero
(for the nonnegative values arising here, the floor). -/
def pyInt (q : ℚ) : ℤ :=
  if 0 ≤ q then ⌊q⌋ else -⌊-q⌋

/-- Python slice `l[0:k]` under `iloc` semantics: a stop short of the list
keeps a prefix, a stop past the end keeps everything, a negative stop counts
from the end. -/
def pyTake (k : ℤ) (l : List Row) : List Row :=
  if 0 ≤ k then l.take k.toNat else l.take ((l.length : ℤ) + k).toNat

/-- Python slice `l[k:]` under `iloc` semantics. -/
def pyDrop (k : ℤ) (l : List Row) : List Row :=
  if 0 ≤ k then l.drop k.toNat else l.drop ((l.length : ℤ) + k).toNat

/-- The tracking backend state visible to the script: whether a run is
currently active, and how many runs have been closed so far. -/
structure TrackState where
  runOpen : Bool
  runsClosed : Nat
deriving DecidableEq

/-- `with mlflow.start_run():` (line 76) — the context-manager protocol for
the tracking-run scope: the run is opened, the body executes, and the run is
closed on every exit path, whether the body returns normally or raises. -/
def withRun {α : Type} (s : TrackState)
    (body : TrackState → Except String α × TrackState) :
    Except String α × TrackState :=
  let s1 : TrackState := { s with runOpen := true }
  let p := body s1
  (p.1, { p.2 with runOpen := false, runsClosed := p.2.runsClosed + 1 })

/-- Outcomes of the external library calls made inside `train_predict`:
Prophet fitting and prediction, rolling-origin cross-validation, the
performance-metrics table, the `df_p.loc[0, "rmse"]` lookup, and the MLflow
logging calls. Each call either succeeds or raises. -/
structure Externals where
  fit : DataFrame → Except String Unit
  cross_validation : Except String DataFrame
  performance_metrics : DataFrame → Except String DataFrame
  locRmse : DataFrame → Except String ℚ
  log_metric : ℚ → Except String Unit
  log_model : Except String Unit
  predict : DataFrame → Except String DataFrame

/-- The body of the `with mlflow.start_run():` block of `train_predict`
(lines 77-100): split the series at `int(train_fraction * df.shape[0])` into
a prefix `df_train` and suffix `df_test` (`df.copy()` gives value semantics),
then fit, cross-validate, compute metrics, log the metric and the model, and
predict over the test slice; any raising step aborts the rest of the body. -/
def train_predict_body (ext : Externals) (df : DataFrame)
    (train_fraction : ℚ) :
    Except String (DataFrame × DataFrame × DataFrame × ℤ) := do
  let train_index : ℤ := pyInt (train_fraction * (df.rows.length : ℚ))
  let df_train : DataFrame := { df with rows := pyTake train_index df.rows }
  let df_test : DataFrame := { df with rows := pyDrop train_index df.rows }
  let _ ← ext.fit df_train
  let df_cv ← ext.cross_validation
  let df_p ← ext.performance_metrics df_cv
  let rmse ← ext.locRmse df_p
  let _ ← ext.log_metric rmse
  let _ ← ext.log_model
  let predicted ← ext.predict df_test
  pure (predicted, df_train, df_test, train_index)

/-- Shallow embedding of `train_predict` (lines 71-100): the body above run
inside the tracking-run scope. The result pairs the returned value (or the
propagated exception) with the final tracking state. -/
def train_predict (ext : Externals) (df : DataFrame) (train_fraction : ℚ)
    (s : TrackState) :
    Except String (DataFrame × DataFrame × DataFrame × ℤ) × TrackState :=
  withRun s (fun s1 => (train_predict_body ext df train_fraction, s1))

/-- One rendering side effect of `plot_forecast`, carrying the data it
renders: the truth plot of the test frame, the prediction plot, the
confidence band (`ds`, `yhat_upper`, `yhat_lower` columns), the train-tail
plot, and the figure write. -/
inductive PlotEvent where
  | plotTest : DataFrame → PlotEvent
  | plotPredicted : DataFrame → PlotEvent
  | fillBetween : List Int → List Int → List Int → PlotEvent
  | plotTrainTail : List Row → PlotEvent
  | savefig : String → PlotEvent
deriving DecidableEq

/-- Shallow embedding of `plot_forecast` (lines 103-148). Its three
parameters are `df_train`, `df_test` and `predicted`; `globalTrainIndex`
models the module-level binding of the free variable `train_index`, which the
body reads on line 134 (`df_train.iloc[train_index - 100:]`). The function
first plots the test series, the prediction and the confidence band; then, if
the module global is unbound, the free-variable read raises `NameError`
before the figure is saved, otherwise it plots the train tail and saves the
figure. The result is the list of rendering effects performed, together with
the outcome. -/
def plot_forecast (globalTrainIndex : Option ℤ)
    (df_train df_test predicted : DataFrame) :
    List PlotEvent × Except String Unit :=
  let band : PlotEvent :=
    PlotEvent.fillBetween (colD predicted "ds")
      (colD predicted "yhat_upper") (colD predicted "yhat_lower")
  match globalTrainIndex with
  | none =>
    ([PlotEvent.plotTest df_test, PlotEvent.plotPredicted predicted, band],
      Except.error "NameError: name train_index is not defined")
  | some ti =>
    ([PlotEvent.plotTest df_test, PlotEvent.plotPredicted predicted, band,
      PlotEvent.plotTrainTail (pyDrop (ti - 100) df_train.rows),
      PlotEvent.savefig "store_data_forecast.png"],
      Except.ok ())

/-- External calls that all succeed, for concrete evaluations. -/
def extOk : Externals :=
  { fit := fun _ => Except.ok (),
    cross_validation := Except.ok ⟨[], []⟩,
    performance_metrics := fun _ => Except.ok ⟨[], []⟩,
    locRmse := fun _ => Except.ok 0,
    log_metric := fun _ => Except.ok (),
    log_model := Except.ok (),
    predict := fun _ => Except.ok ⟨[], []⟩ }

/-- A synthetic prepared series of 400 daily rows for one store. -/
def df400 : DataFrame :=
  ⟨["ds", "y"], (List.range 400).map (fun i => [(i : Int), 0])⟩

/-- Tracking state before the script runs: no active run. -/
def s0 : TrackState :=
  ⟨false, 0⟩

/-- The first 320 rows of the synthetic series. -/
def dfTrain400 : DataFrame :=
  { df400 with rows := df400.rows.take 320 }

/-- The remaining 80 rows of the synthetic series. -/
def dfTest400 : DataFrame :=
  { df400 with rows := df400.rows.drop 320 }

/-- A one-row raw table: store 4, open, date 5, sales 100. -/
def dfRaw : DataFrame :=
  ⟨["Date", "Sales", "Store", "Open"], [[5, 100, 4, 1]]⟩

/-- A raw table mixing stores, open flags and out-of-order dates. -/
def dfMix : DataFrame :=
  ⟨["Date", "Sales", "Store", "Open"],
    [[3, 7, 4, 1], [1, 9, 3, 1], [2, 8, 4, 0], [1, 5, 4, 1]]⟩

/-- Concrete evaluation: splitting the 400-row series at fraction 4/5 with
all external calls succeeding. -/
theorem train_predict_eval400 :
    train_predict extOk df400 (4/5) s0 =
      (Except.ok (⟨[], []⟩, dfTrain400, dfTest400, 320), ⟨false, 1⟩) := by
  have hn : df400.rows.length = 400 := rfl
  have hq : pyInt ((4/5 : ℚ) * (df400.rows.length : ℚ)) = 320 := by
    rw [hn]; norm_num [pyInt]
  simp [train_predict, train_predict_body, withRun, extOk, hq, pyTake, pyDrop, s0,
    Bind.bind, Except.bind, Pure.pure, Except.pure, dfTrain400, dfTest400]

/-- Replacing the rows of a frame does not move its column labels. -/
theorem findCol_set_rows (df : DataFrame) (r : List Row) (c : String) :
    findCol { df with rows := r } c = findCol df c :=
  rfl

/-- Characterization of a successful call of `prep_store_data`: the looked-up
column positions, the mutated input object, and the returned frame. -/
theorem prep_store_data_ok {toDT : Int → Int} {df : DataFrame}
    {sid so : Int} {m out : DataFrame}
    (h : prep_store_data toDT df sid so = Except.ok (m, out)) :
    ∃ di si oi ki,
      findCol df "Date" = some di ∧
      m = mutateFrame toDT df di ∧
      findCol m "Store" = some si ∧
      findCol m "Open" = some oi ∧
      findCol m "ds" = some ki ∧
      out = { cols := m.cols,
              rows := (m.rows.filter
                (rowMatches si oi sid so)).insertionSort (dsLe ki) } := by
  simp only [prep_store_data] at h
  split at h
  · exact absurd h (by simp)
  next di hD =>
    split at h
    next si oi hS hO =>
      rw [findCol_set_rows] at h
      split at h
      · exact absurd h (by simp)
      next ki hK =>
        rw [Except.ok.injEq, Prod.mk.injEq] at h
        obtain ⟨h1, h2⟩ := h
        subst h1
        subst h2
        exact ⟨di, si, oi, ki, hD, rfl, hS, hO, hK, rfl⟩
    next hS hO => exact absurd h (by simp)
    next hS hO => exact absurd h (by simp)

/-- Peeling one step of a successful `Except` computation. -/
theorem except_bind_ok {α β : Type} {ma : Except String α}
    {f : α → Except String β} {b : β}
    (h : ma >>= f = Except.ok b) :
    ∃ a, ma = Except.ok a ∧ f a = Except.ok b := by
  cases ma with
  | error e => exact absurd h (by simp [Bind.bind, Except.bind])
  | ok a => exact ⟨a, rfl, by simpa [Bind.bind, Except.bind] using h⟩

/-- A successful `train_predict` body returns the series split at
`int(train_fraction * df.shape[0])`: that index, the row prefix before it as
the train frame, and the row suffix from it as the test frame. -/
theorem train_predict_body_ok {ext : Externals} {df : DataFrame}
    {f : ℚ} {p tr te : DataFrame} {ti : ℤ}
    (h : train_predict_body ext df f = Except.ok (p, tr, te, ti)) :
    ti = pyInt (f * (df.rows.length : ℚ)) ∧
    tr = { df with rows := pyTake ti df.rows } ∧
    te = { df with rows := pyDrop ti df.rows } := by
  simp only [train_predict_body] at h
  obtain ⟨u1, h1, h⟩ := except_bind_ok h
  obtain ⟨dcv, h2, h⟩ := except_bind_ok h
  obtain ⟨dp, h3, h⟩ := except_bind_ok h
  obtain ⟨r, h4, h⟩ := except_bind_ok h
  obtain ⟨u2, h5, h⟩ := except_bind_ok h
  obtain ⟨u3, h6, h⟩ := except_bind_ok h
  obtain ⟨pr, h7, h⟩ := except_bind_ok h
  simp only [Pure.pure, Except.pure, Except.ok.injEq, Prod.mk.injEq] at h
  obtain ⟨hp, htr, hte, hti⟩ := h
  subst hti
  exact ⟨rfl, htr.symm, hte.symm⟩

/-- C9: the tracking-run context opened by `train_predict` is a scoped
resource and is released on every exit path: whatever the outcomes of the
external calls inside the scope (model fitting, cross-validation, metric and
model logging may each raise), the run is closed when `train_predict`
returns, and exactly one run is closed. -/
theorem train_predict_closes_run (ext : Externals) (df : DataFrame)
    (f : ℚ) (s : TrackState) :
    ((train_predict ext df f s).2).runOpen = false ∧
    ((train_predict ext df f s).2).runsClosed = s.runsClosed + 1 :=
  ⟨rfl, rfl⟩

/-- C1: for a split fraction in (0,1), a successful `train_predict` splits
the series so that the train and test lengths sum to the input length and
the train length is `floor(fraction * len(df))`. -/
theorem train_predict_split_lengths (ext : Externals) (df : DataFrame)
    (f : ℚ) (s : TrackState) (p tr te : DataFrame) (ti : ℤ) (s2 : TrackState)
    (h0 : 0 < f) (h1 : f < 1)
    (h : train_predict ext df f s = (Except.ok (p, tr, te, ti), s2)) :
    tr.rows.length + te.rows.length = df.rows.length ∧
    (tr.rows.length : ℤ) = ⌊f * (df.rows.length : ℚ)⌋ := by
  have hb : train_predict_body ext df f = Except.ok (p, tr, te, ti) :=
    congrArg Prod.fst h
  obtain ⟨hti, htr, hte⟩ := train_predict_body_ok hb
  have hq0 : (0 : ℚ) ≤ f * (df.rows.length : ℚ) :=
    mul_nonneg h0.le (Nat.cast_nonneg df.rows.length)
  have htieq : ti = ⌊f * (df.rows.length : ℚ)⌋ := by
    rw [hti, pyInt, if_pos hq0]
  have hnn : 0 ≤ ti := htieq ▸ Int.floor_nonneg.mpr hq0
  have hle : ti ≤ (df.rows.length : ℤ) := by
    rw [htieq]
    calc ⌊f * (df.rows.length : ℚ)⌋ ≤ ⌊((df.rows.length : ℕ) : ℚ)⌋ :=
          Int.floor_le_floor (by nlinarith [Nat.cast_nonneg (α := ℚ) df.rows.length])
      _ = (df.rows.length : ℤ) := Int.floor_natCast df.rows.length
  have htr2 : tr.rows.length = min ti.toNat df.rows.length := by
    rw [htr]; simp [pyTake, if_pos hnn]
  have hte2 : te.rows.length = df.rows.length - ti.toNat := by
    rw [hte]; simp [pyDrop, if_pos hnn]
  constructor
  · rw [htr2, hte2]; omega
  · rw [htr2, ← htieq]; omega

/-- C1 witness: the synthetic 400-row series at fraction 4/5 gives a 320-row
train slice and an 80-row test slice. -/
theorem train_predict_split_lengths_witness :
    (dfTrain400.rows.length = 320 ∧ dfTest400.rows.length = 80) ∧
    (dfTrain400.rows.length + dfTest400.rows.length = df400.rows.length ∧
      (dfTrain400.rows.length : ℤ) = ⌊(4/5 : ℚ) * (df400.rows.length : ℚ)⌋) :=
  ⟨⟨rfl, rfl⟩,
    train_predict_split_lengths extOk df400 (4/5) s0 ⟨[], []⟩ dfTrain400
      dfTest400 320 ⟨false, 1⟩ (by norm_num) (by norm_num) train_predict_eval400⟩

/-- C7: the train/test split is an order-preserving prefix/suffix split with
no shuffling: the train frame is exactly the first `train_index` rows of the
input, the test frame exactly the remaining rows, and concatenating them
yields the input series. -/
theorem train_predict_prefix_suffix (ext : Externals) (df : DataFrame)
    (f : ℚ) (s : TrackState) (p tr te : DataFrame) (ti : ℤ) (s2 : TrackState)
    (h0 : 0 ≤ f)
    (h : train_predict ext df f s = (Except.ok (p, tr, te, ti), s2)) :
    tr.rows = df.rows.take ti.toNat ∧
    te.rows = df.rows.drop ti.toNat ∧
    tr.rows ++ te.rows = df.rows := by
  have hb : train_predict_body ext df f = Except.ok (p, tr, te, ti) :=
    congrArg Prod.fst h
  obtain ⟨hti, htr, hte⟩ := train_predict_body_ok hb
  have hq0 : (0 : ℚ) ≤ f * (df.rows.length : ℚ) :=
    mul_nonneg h0 (Nat.cast_nonneg df.rows.length)
  have hnn : 0 ≤ ti := by
    rw [hti, pyInt, if_pos hq0]
    exact Int.floor_nonneg.mpr hq0
  have htr2 : tr.rows = df.rows.take ti.toNat := by
    rw [htr]; simp [pyTake, if_pos hnn]
  have hte2 : te.rows = df.rows.drop ti.toNat := by
    rw [hte]; simp [pyDrop, if_pos hnn]
  exact ⟨htr2, hte2, by rw [htr2, hte2]; exact List.take_append_drop ti.toNat df.rows⟩

/-- C7 witness: the 400-row split at fraction 4/5 is the prefix/suffix split
at row 320 and concatenates back to the input. -/
theorem train_predict_prefix_suffix_witness :
    dfTrain400.rows = df400.rows.take (320 : ℤ).toNat ∧
    dfTest400.rows = df400.rows.drop (320 : ℤ).toNat ∧
    dfTrain400.rows ++ dfTest400.rows = df400.rows :=
  train_predict_prefix_suffix extOk df400 (4/5) s0 ⟨[], []⟩ dfTrain400
    dfTest400 320 ⟨false, 1⟩ (by norm_num) train_predict_eval400

/-- C2 counterexample: the table object passed in is not left unchanged. On
a one-row raw table, with a date conversion that sends the raw date cell 5
to the timestamp 105, `prep_store_data` succeeds, but the caller's table
object after the call (first component of the result) differs from the table
before the call in both respects named by the claim: its column names have
become `ds, y, Store, Open`, and the contents of its date column have become
`105` instead of `5`. -/
theorem prep_store_data_not_pure_cex :
    prep_store_data (fun t => t + 100) dfRaw 4 1 =
      Except.ok (⟨["ds", "y", "Store", "Open"], [[105, 100, 4, 1]]⟩,
        ⟨["ds", "y", "Store", "Open"], [[105, 100, 4, 1]]⟩) ∧
    (DataFrame.mk ["ds", "y", "Store", "Open"] [[105, 100, 4, 1]]).cols ≠
      dfRaw.cols ∧
    (DataFrame.mk ["ds", "y", "Store", "Open"] [[105, 100, 4, 1]]).rows ≠
      dfRaw.rows :=
  ⟨rfl, by decide, by decide⟩

/-- C2 (amended): `prep_store_data` is deterministic — in this embedding a
function of the raw table, the store identifier, the open-flag value and the
date conversion — but it is not free of side effects: every successful call
mutates the table object passed in, renaming its `Date` and `Sales` columns
to `ds` and `y` in place and overwriting its date cells with their converted
values; in particular the caller's column names after the call never equal
the column names before the call. -/
theorem prep_store_data_mutation (toDT : Int → Int) (df : DataFrame)
    (sid so : Int) (m out : DataFrame)
    (h : prep_store_data toDT df sid so = Except.ok (m, out)) :
    ∃ di, findCol df "Date" = some di ∧
      m.cols = df.cols.map renameCol ∧
      m.rows = df.rows.map (fun r => r.set di (toDT (cellD r di))) ∧
      m.cols ≠ df.cols := by
  obtain ⟨di, si, oi, ki, hD, hm, hS, hO, hK, ho⟩ := prep_store_data_ok h
  have hmap : m.cols = df.cols.map renameCol := by rw [hm]; rfl
  refine ⟨di, hD, hmap, by rw [hm]; rfl, ?_⟩
  have hD2 := hD
  rw [findCol, List.findIdx?_eq_some_iff_getElem] at hD2
  obtain ⟨hlt, hp, -⟩ := hD2
  have hdi : df.cols[di] = "Date" := by simpa using hp
  intro heq
  have h2 : (df.cols.map renameCol)[di]? = df.cols[di]? := by
    rw [← hmap, heq]
  rw [List.getElem?_map] at h2
  have h3 : df.cols[di]? = some "Date" := by
    rw [List.getElem?_eq_getElem hlt, hdi]
  rw [h3] at h2
  simp [renameCol] at h2

/-- C2 witness: the mutation characterization evaluated on the one-row raw
table with the conversion sending raw date 5 to timestamp 105: the post-call
object is fully determined, and its column names differ from the input's. -/
theorem prep_store_data_mutation_witness :
    ∃ di, findCol dfRaw "Date" = some di ∧
      (DataFrame.mk ["ds", "y", "Store", "Open"] [[105, 100, 4, 1]]).cols =
        dfRaw.cols.map renameCol ∧
      (DataFrame.mk ["ds", "y", "Store", "Open"] [[105, 100, 4, 1]]).rows =
        dfRaw.rows.map (fun r => r.set di (cellD r di + 100)) ∧
      (DataFrame.mk ["ds", "y", "Store", "Open"] [[105, 100, 4, 1]]).cols ≠
        dfRaw.cols :=
  prep_store_data_mutation (fun t => t + 100) dfRaw 4 1
    ⟨["ds", "y", "Store", "Open"], [[105, 100, 4, 1]]⟩
    ⟨["ds", "y", "Store", "Open"], [[105, 100, 4, 1]]⟩ rfl

/-- C3 counterexample: on a table with exactly the expected source columns,
the frame returned by `prep_store_data` carries the columns
`ds, y, Store, Open` — not exactly the canonical pair `ds, y`. -/
theorem prep_store_data_cols_cex :
    prep_store_data id dfRaw 4 1 =
      Except.ok (⟨["ds", "y", "Store", "Open"], [[5, 100, 4, 1]]⟩,
        ⟨["ds", "y", "Store", "Open"], [[5, 100, 4, 1]]⟩) ∧
    (DataFrame.mk ["ds", "y", "Store", "Open"] [[5, 100, 4, 1]]).cols ≠
      ["ds", "y"] :=
  ⟨rfl, by decide⟩

/-- C3 (amended): for every input table on which `prep_store_data` succeeds,
the returned frame's column names are the input column names with `Date`
renamed to `ds` and `Sales` renamed to `y`; every other input column
(`Store`, `Open`, and any extras) is retained, so the columns are exactly the
canonical pair only when the input had no other columns. -/
theorem prep_store_data_cols (toDT : Int → Int) (df : DataFrame)
    (sid so : Int) (m out : DataFrame)
    (h : prep_store_data toDT df sid so = Except.ok (m, out)) :
    out.cols = df.cols.map renameCol := by
  obtain ⟨di, si, oi, ki, hD, hm, hS, hO, hK, ho⟩ := prep_store_data_ok h
  rw [ho, hm]; rfl

/-- C3 witness: the column characterization evaluated on the one-row raw
table. -/
theorem prep_store_data_cols_witness :
    (DataFrame.mk ["ds", "y", "Store", "Open"] [[5, 100, 4, 1]]).cols =
      dfRaw.cols.map renameCol :=
  prep_store_data_cols id dfRaw 4 1
    ⟨["ds", "y", "Store", "Open"], [[5, 100, 4, 1]]⟩
    ⟨["ds", "y", "Store", "Open"], [[5, 100, 4, 1]]⟩ rfl

/-- C4: the prepared frame contains exactly the matching rows — every row of
the frame returned by `prep_store_data` has its `Store` cell equal to the
requested store identifier and its `Open` cell equal to the requested
open-flag value, and every row of the input table (as it stands after the
in-place preparation, first component `m`) satisfying both conditions
appears in the returned frame. -/
theorem prep_store_data_filter (toDT : Int → Int) (df : DataFrame)
    (sid so : Int) (m out : DataFrame) (si oi : Nat)
    (h : prep_store_data toDT df sid so = Except.ok (m, out))
    (hS : findCol m "Store" = some si)
    (hO : findCol m "Open" = some oi) :
    (∀ r ∈ out.rows, cellD r si = sid ∧ cellD r oi = so) ∧
    (∀ r ∈ m.rows, cellD r si = sid → cellD r oi = so → r ∈ out.rows) := by
  obtain ⟨di, si2, oi2, ki, hD, hm, hS2, hO2, hK, ho⟩ := prep_store_data_ok h
  obtain rfl : si2 = si := Option.some.inj (hS2.symm.trans hS)
  obtain rfl : oi2 = oi := Option.some.inj (hO2.symm.trans hO)
  constructor
  · intro r hr
    rw [ho] at hr
    simp only [List.mem_insertionSort, List.mem_filter] at hr
    have hmatch := hr.2
    simp only [rowMatches, Bool.and_eq_true, beq_iff_eq] at hmatch
    exact hmatch
  · intro r hr h1 h2
    rw [ho]
    simp only [List.mem_insertionSort, List.mem_filter]
    exact ⟨hr, by simp [rowMatches, beq_iff_eq, h1, h2]⟩

/-- C4 witness: in the mixed table, the row for store 4, open, date 1 is kept
by the preparation and indeed matches the requested store and flag. -/
theorem prep_store_data_filter_witness :
    cellD [1, 5, 4, 1] 2 = 4 ∧ cellD [1, 5, 4, 1] 3 = 1 :=
  (prep_store_data_filter id dfMix 4 1
      ⟨["ds", "y", "Store", "Open"],
        [[3, 7, 4, 1], [1, 9, 3, 1], [2, 8, 4, 0], [1, 5, 4, 1]]⟩
      ⟨["ds", "y", "Store", "Open"], [[1, 5, 4, 1], [3, 7, 4, 1]]⟩
      2 3 rfl rfl rfl).1 [1, 5, 4, 1] (by decide)

/-- C5: the timestamp column of the frame returned by `prep_store_data` is
sorted in non-decreasing order. -/
theorem prep_store_data_sorted (toDT : Int → Int) (df : DataFrame)
    (sid so : Int) (m out : DataFrame)
    (h : prep_store_data toDT df sid so = Except.ok (m, out)) :
    (colD out "ds").Sorted (· ≤ ·) := by
  obtain ⟨di, si, oi, ki, hD, hm, hS, hO, hK, ho⟩ := prep_store_data_ok h
  have hKout : findCol out "ds" = some ki := by rw [ho]; exact hK
  have hrows : out.rows =
      (m.rows.filter (rowMatches si oi sid so)).insertionSort (dsLe ki) := by
    rw [ho]
  rw [colD, hKout, hrows]
  have hs := List.sorted_insertionSort (dsLe ki)
    (m.rows.filter (rowMatches si oi sid so))
  exact List.Pairwise.map (fun r => cellD r ki) (fun a b hab => hab) hs

/-- C5 witness: preparing the mixed table (dates out of order in the input)
yields a frame whose `ds` column is sorted non-decreasing. -/
theorem prep_store_data_sorted_witness :
    (colD ⟨["ds", "y", "Store", "Open"], [[1, 5, 4, 1], [3, 7, 4, 1]]⟩
      "ds").Sorted (· ≤ ·) :=
  prep_store_data_sorted id dfMix 4 1
    ⟨["ds", "y", "Store", "Open"],
      [[3, 7, 4, 1], [1, 9, 3, 1], [2, 8, 4, 0], [1, 5, 4, 1]]⟩
    ⟨["ds", "y", "Store", "Open"], [[1, 5, 4, 1], [3, 7, 4, 1]]⟩ rfl

/-- C6: uniqueness of timestamps is an invariant of the prepared series:
when the input rows for the requested store carry pairwise-distinct
(converted) dates — the raw-record data model has one row per (store, date)
— the timestamps of the series returned by `prep_store_data` are pairwise
distinct. -/
theorem prep_store_data_ds_unique (toDT : Int → Int) (df : DataFrame)
    (sid so : Int) (m out : DataFrame) (si ki : Nat)
    (h : prep_store_data toDT df sid so = Except.ok (m, out))
    (hS : findCol m "Store" = some si)
    (hK : findCol m "ds" = some ki)
    (hnd : ((m.rows.filter (fun r => cellD r si == sid)).map
      (fun r => cellD r ki)).Nodup) :
    (colD out "ds").Nodup := by
  obtain ⟨di, si2, oi, ki2, hD, hm, hS2, hO, hK2, ho⟩ := prep_store_data_ok h
  have hsi : si2 = si := Option.some.inj (hS2.symm.trans hS)
  have hki : ki2 = ki := Option.some.inj (hK2.symm.trans hK)
  rw [hsi, hki] at ho
  have hKout : findCol out "ds" = some ki := by rw [ho]; exact hK
  simp only [colD, hKout]
  have hsub : List.Sublist (m.rows.filter (rowMatches si oi sid so))
      (m.rows.filter (fun r => cellD r si == sid)) :=
    List.monotone_filter_right m.rows (fun r hr => by
      simp only [rowMatches, Bool.and_eq_true] at hr
      exact hr.1)
  have hnd2 : ((m.rows.filter (rowMatches si oi sid so)).map
      (fun r => cellD r ki)).Nodup :=
    hnd.sublist (hsub.map (fun r => cellD r ki))
  have hperm : ((m.rows.filter (rowMatches si oi sid so)).map
      (fun r => cellD r ki)).Perm (out.rows.map (fun r => cellD r ki)) := by
    rw [ho]
    exact ((List.perm_insertionSort (dsLe ki) _).map _).symm
  exact hperm.nodup hnd2

/-- C6 witness: the mixed table has three distinct dates for store 4, and the
prepared series has pairwise-distinct timestamps. -/
theorem prep_store_data_ds_unique_witness :
    (colD ⟨["ds", "y", "Store", "Open"], [[1, 5, 4, 1], [3, 7, 4, 1]]⟩
      "ds").Nodup :=
  prep_store_data_ds_unique id dfMix 4 1
    ⟨["ds", "y", "Store", "Open"],
      [[3, 7, 4, 1], [1, 9, 3, 1], [2, 8, 4, 0], [1, 5, 4, 1]]⟩
    ⟨["ds", "y", "Store", "Open"], [[1, 5, 4, 1], [3, 7, 4, 1]]⟩
    2 0 rfl rfl rfl (by decide)

/-- C8: on a table with the expected source columns in which no row is for
the requested store, `prep_store_data` raises nothing and silently returns a
frame with no rows. -/
theorem prep_store_data_absent_store (toDT : Int → Int) (df : DataFrame)
    (sid so : Int) (di si oi : Nat)
    (hD : findCol df "Date" = some di)
    (hS : findCol (mutateFrame toDT df di) "Store" = some si)
    (hO : findCol (mutateFrame toDT df di) "Open" = some oi)
    (habs : ∀ r ∈ (mutateFrame toDT df di).rows, cellD r si ≠ sid) :
    prep_store_data toDT df sid so =
      Except.ok (mutateFrame toDT df di,
        { cols := (mutateFrame toDT df di).cols, rows := [] }) := by
  have hDate : "Date" ∈ df.cols := by
    rw [findCol] at hD
    rw [List.findIdx?_eq_some_iff_getElem] at hD
    obtain ⟨hlt, hp, -⟩ := hD
    have hdi : df.cols[di] = "Date" := by simpa using hp
    rw [← hdi]
    exact List.getElem_mem hlt
  have hdsmem : ∃ x, x ∈ (mutateFrame toDT df di).cols ∧ (x == "ds") = true := by
    refine ⟨"ds", ?_, by simp⟩
    have hds : renameCol "Date" = "ds" := by simp [renameCol]
    exact hds ▸ List.mem_map_of_mem renameCol hDate
  obtain ⟨ki, hki⟩ : ∃ ki, findCol (mutateFrame toDT df di) "ds" = some ki :=
    ⟨_, List.findIdx?_eq_some_of_exists hdsmem⟩
  have hfil : (mutateFrame toDT df di).rows.filter
      (rowMatches si oi sid so) = [] := by
    rw [List.filter_eq_nil_iff]
    intro r hr
    simp only [rowMatches, Bool.and_eq_true, beq_iff_eq, not_and]
    intro h1
    exact absurd h1 (habs r hr)
  simp only [prep_store_data, hD, hS, hO, findCol_set_rows, hki, hfil]
  rfl

/-- C8 witness: requesting store 9, absent from the mixed table, returns an
empty frame without an error. -/
theorem prep_store_data_absent_store_witness :
    prep_store_data id dfMix 9 1 =
      Except.ok (mutateFrame id dfMix 0,
        { cols := (mutateFrame id dfMix 0).cols, rows := [] }) :=
  prep_store_data_absent_store id dfMix 9 1 0 2 3 rfl rfl rfl (by decide)

/-- C10: `plot_forecast` reads the free variable `train_index`, which is not
among its three parameters, so its behaviour is determined by the
module-level global: with the global unbound, every call fails with
`NameError` and the chart file is never written; with any bound value the
call succeeds. -/
theorem plot_forecast_global_dependence (df_train df_test predicted : DataFrame) :
    ((plot_forecast none df_train df_test predicted).2 =
        Except.error "NameError: name train_index is not defined" ∧
      ∀ e ∈ (plot_forecast none df_train df_test predicted).1,
        e ≠ PlotEvent.savefig "store_data_forecast.png") ∧
    ∀ ti : ℤ, (plot_forecast (some ti) df_train df_test predicted).2 =
      Except.ok () := by
  refine ⟨⟨rfl, ?_⟩, fun ti => rfl⟩
  intro e he
  simp only [plot_forecast, List.mem_cons, List.not_mem_nil, or_false] at he
  rcases he with h | h | h <;> subst h <;> intro hc <;> exact PlotEvent.noConfusion hc

/-- C10 witness: with the global unbound, plotting the 400-row split fails
with `NameError` and no save event is emitted; with the global bound to 320
it succeeds. -/
theorem plot_forecast_global_dependence_witness :
    ((plot_forecast none dfTrain400 dfTest400 ⟨[], []⟩).2 =
        Except.error "NameError: name train_index is not defined") ∧
    PlotEvent.plotTest dfTest400 ≠ PlotEvent.savefig "store_data_forecast.png" ∧
    (plot_forecast (some 320) dfTrain400 dfTest400 ⟨[], []⟩).2 = Except.ok () :=
  ⟨(plot_forecast_global_dependence dfTrain400 dfTest400 ⟨[], []⟩).1.1,
    (plot_forecast_global_dependence dfTrain400 dfTest400 ⟨[], []⟩).1.2
      (PlotEvent.plotTest dfTest400) (by simp [plot_forecast]),
    (plot_forecast_global_dependence dfTrain400 dfTest400 ⟨[], []⟩).2 320⟩
